import Mathlib

/-!
Shallow embedding of the vdx-web development servers
(`app/test-server.py` and `app/ts-demo/dev-server.py`).

Conventions of the embedding:

* HTTP requests and responses are records; header collections are
  association lists of name/value pairs kept in order.
* Filesystem paths are lists of path components counted from the
  filesystem root; the filesystem itself is a structure of pure
  predicates.  Symbolic links are not modelled, so `Path.resolve`
  becomes the lexical normalisation of `..` components, and the
  `is_dir`/`is_file`/`exists` queries are evaluated on resolved
  paths (the operating system resolves `..` during path walking).
* The outbound network call made by the proxy is a parameter mapping
  the outbound request to its outcome (success, timeout, client
  error, or unexpected exception), mirroring the four branches of
  `proxy_request`.
* Bytes are modelled as `String` and mtime floats as `Nat`; none of
  the verified claims depend on their finer structure.
-/

namespace VdxWeb

/-- An inbound HTTP request as seen by the aiohttp handlers: method,
URL path, path with query string (`request.path_qs`), headers, and
body. -/
structure Request where
  method : String
  path : String
  path_qs : String
  headers : List (String × String)
  body : String
deriving DecidableEq

/-- A response as constructed by the handlers via `web.Response`:
status, explicitly passed headers, the `content_type` and `charset`
keyword arguments, and the body (`none` when no body or text argument
is given). -/
structure Response where
  status : Nat
  headers : List (String × String)
  contentType : Option String
  charset : Option String
  body : Option String
deriving DecidableEq

/-- ASCII lowercasing of a string, Python `str.lower` on the header
names and values this development handles. -/
def lowerStr (s : String) : String :=
  (s.toList.map Char.toLower).asString

/-- Case-insensitive header lookup, as on aiohttp's `CIMultiDict`
(`request.headers.get` and the `in` membership test). -/
def headerGet (hs : List (String × String)) (k : String) : Option String :=
  (hs.find? (fun p => lowerStr p.1 == lowerStr k)).map (fun p => p.2)

/-- Python `dict` lookup on an insertion-ordered association list with
unique keys (`response_headers[k]`). -/
def dictGet (d : List (String × String)) (k : String) : Option String :=
  (d.find? (fun p => p.1 == k)).map (fun p => p.2)

/-- Python `dict` assignment `d[k] = v`: replace the value at the
first occurrence of the key in place, otherwise append in insertion
order.  Lists built from `[]` by `dictSet` have unique keys, matching
`dict` semantics. -/
def dictSet : List (String × String) → String → String → List (String × String)
  | [], k, v => [(k, v)]
  | p :: rest, k, v => if p.1 == k then (k, v) :: rest else p :: dictSet rest k v

/-- `PROXY_HOST` constant of `test-server.py`. -/
def PROXY_HOST : String := "https://iwalton.com"

/-- `PROXY_PATHS` constant of `test-server.py`. -/
def PROXY_PATHS : List String := ["/spa-api", "/spwg-api", "/theme/"]

/-- Fuelled scanner behind `removeOcc`; the fuel only serves to make
the recursion structural, and `removeOcc` always supplies enough. -/
def removeOccFuel (pat : List Char) : Nat → List Char → List Char
  | _, [] => []
  | 0, s => s
  | fuel + 1, c :: rest =>
      if pat ≠ [] ∧ pat.isPrefixOf (c :: rest) then
        removeOccFuel pat fuel ((c :: rest).drop pat.length)
      else
        c :: removeOccFuel pat fuel rest

/-- Python `value.replace(pat, empty-replacement)` at character level:
delete the left-to-right non-overlapping occurrences of `pat`,
scanning forward only (the text after a deleted occurrence is scanned
fresh, never rejoined with already-emitted text). -/
def removeOcc (pat : List Char) (s : List Char) : List Char :=
  removeOccFuel pat s.length s

/-- Character-level form of the `Secure`-flag stripping `proxy_request`
applies to `Set-Cookie` values:
`value.replace(semicolon-space-Secure, empty).replace(semicolon-Secure, empty)`. -/
def stripSecureL (s : List Char) : List Char :=
  removeOcc (String.toList ";Secure") (removeOcc (String.toList "; Secure") s)

/-- String form of the `Secure`-flag stripping. -/
def stripSecure (v : String) : String :=
  (stripSecureL v.toList).asString

/-- The transport-layer headers `proxy_request` refuses to forward:
`header.lower() in [transfer-encoding, connection, content-encoding]`. -/
def skipHeader (name : String) : Bool :=
  ["transfer-encoding", "connection", "content-encoding"].contains (lowerStr name)

/-- The per-header value rewrite of `proxy_request`: `Set-Cookie`
values (matched case-insensitively) get the `Secure` flag stripped,
every other value is kept as is. -/
def cookieRewrite (name value : String) : String :=
  if lowerStr name == "set-cookie" then stripSecure value else value

/-- One step of the `for header, value in response.headers.items()`
loop of `proxy_request`, acting on the `response_headers` dict. -/
def hstep (d : List (String × String)) (p : String × String) : List (String × String) :=
  if skipHeader p.1 then d else dictSet d p.1 (cookieRewrite p.1 p.2)

/-- The `response_headers` dict built by `proxy_request` from the
origin's response headers. -/
def buildRespHeaders (hs : List (String × String)) : List (String × String) :=
  hs.foldl hstep []

/-- The three CORS assignments `proxy_request` performs on
`response_headers` after the copy loop. -/
def addCors (d : List (String × String)) : List (String × String) :=
  dictSet (dictSet (dictSet d "Access-Control-Allow-Origin" "*")
      "Access-Control-Allow-Methods" "GET, POST, OPTIONS")
    "Access-Control-Allow-Headers" "Content-Type"

/-- The outbound request `proxy_request` issues through
`session.request`: target URL, headers and optional body. -/
structure OutboundRequest where
  url : String
  headers : List (String × String)
  body : Option String
deriving DecidableEq

/-- Outcome of the outbound call, mirroring the branches of the
`try` block in `proxy_request`: a response from the origin, an
`asyncio.TimeoutError`, an `aiohttp.ClientError` carrying its string
form, or any other exception carrying its string form. -/
inductive NetOutcome where
  | success (status : Nat) (headers : List (String × String)) (body : String)
  | timeout
  | clientError (msg : String)
  | otherError (msg : String)
deriving DecidableEq

/-- Construction of the outbound request in `proxy_request` (lines
36-54): target URL `PROXY_HOST + request.path_qs`, the minimal header
set, and the body read only for `POST`. -/
def outboundRequest (r : Request) : OutboundRequest :=
  ⟨PROXY_HOST ++ r.path_qs,
   [("User-Agent", (headerGet r.headers "User-Agent").getD "Mozilla/5.0"),
    ("Content-Type", (headerGet r.headers "Content-Type").getD "application/json")] ++
     (match headerGet r.headers "Cookie" with
      | some c => [("Cookie", c)]
      | none => []),
   if r.method == "POST" then some r.body else none⟩

/-- `proxy_request` of `test-server.py`: issue the outbound request
and translate the outcome into a `web.Response`. -/
def proxy_request (net : OutboundRequest → NetOutcome) (r : Request) : Response :=
  match net (outboundRequest r) with
  | .success st hs b => ⟨st, addCors (buildRespHeaders hs), none, none, some b⟩
  | .timeout => ⟨504, [], none, none, some "Proxy timeout"⟩
  | .clientError msg => ⟨502, [], none, none, some ("Proxy error: " ++ msg)⟩
  | .otherError msg => ⟨500, [], none, none, some ("Server error: " ++ msg)⟩

/-- The filesystem visible to `serve_file`, as pure predicates over
resolved paths.  `read` returning `none` models `read_bytes` raising. -/
structure FileSystem where
  isDir : List String → Bool
  isFile : List String → Bool
  read : List String → Option String

/-- Python `Path.exists()`: the path names a file or a directory. -/
def pyExists (fs : FileSystem) (p : List String) : Bool :=
  fs.isFile p || fs.isDir p

/-- Python `path.lstrip(slash)`: drop every leading slash. -/
def lstripSlash (s : String) : String :=
  (s.toList.dropWhile (fun c => c == '/')).asString

/-- Split a character list at each occurrence of a separator
character. -/
def splitOnChar (ch : Char) : List Char → List (List Char)
  | [] => [[]]
  | c :: rest =>
    match splitOnChar ch rest with
    | [] => [[]]
    | h :: t => if c == ch then [] :: h :: t else (c :: h) :: t

/-- Parsing of a relative path string by `pathlib` (`BASE_DIR / path`):
split on slashes, dropping empty components and single dots;
`..` components are kept. -/
def parseRel (s : String) : List String :=
  ((splitOnChar '/' s.toList).map List.asString).filter (fun c => c ≠ "" ∧ c ≠ ".")

/-- Python `Path.resolve()` without symbolic links: lexically
normalise `..` components (at the root, `..` stays at the root). -/
def resolvePath (comps : List String) : List String :=
  comps.foldl
    (fun acc c =>
      if c = ".." then acc.dropLast
      else if c = "." ∨ c = "" then acc
      else acc ++ [c])
    []

/-- Whether `Path(name).suffix` is nonempty, per CPython: the last
dot of the final component must sit strictly inside the name,
neither at position zero nor at the end. -/
def hasPySuffix (name : String) : Bool :=
  match name.toList.reverse.findIdx? (fun c => c == '.') with
  | none => false
  | some j => decide (j + 1 < name.toList.length ∧ 1 ≤ j)

/-- Final component of a path, the `Path.name` used for the suffix
test in `serve_file`. -/
def lastName (l : List String) : String :=
  l.getLastD ""

/-- Rendering of a path for `mimetypes.guess_type(str(file_path))`. -/
def joinPath (l : List String) : String :=
  "/" ++ String.intercalate "/" l

/-- The candidate path `serve_file` settles on before the security
check (lines 106-121): strip slashes, default empty paths to
`index.html`, apply the SPA fallback when the name has no suffix and
the path is not a directory, and append `index.html` to directories. -/
def candidate (fs : FileSystem) (base : List String) (reqPath : String) : List String :=
  let path0 := lstripSlash reqPath
  let path1 := if path0 = "" then "index.html" else path0
  let cand1 := base ++ parseRel path1
  let cand2 :=
    if ¬ hasPySuffix (lastName cand1) ∧ ¬ fs.isDir (resolvePath cand1) then
      base ++ ["index.html"]
    else cand1
  if fs.isDir (resolvePath cand2) then cand2 ++ ["index.html"] else cand2

/-- `serve_file` of `test-server.py`: resolve the candidate path,
refuse paths escaping the base directory with 403, answer 404 for
missing files, and otherwise serve the file contents with the guessed
content type (`guess` stands for `mimetypes.guess_type`). -/
def serve_file (fs : FileSystem) (guess : String → Option String) (base : List String)
    (r : Request) : Response :=
  let resolved := resolvePath (candidate fs base r.path)
  if base.isPrefixOf resolved then
    if pyExists fs resolved && fs.isFile resolved then
      match fs.read resolved with
      | some content =>
          let ct := (guess (joinPath resolved)).getD "application/octet-stream"
          ⟨200, [], some ct,
           if "text/".toList.isPrefixOf ct.toList ∨ ct == "application/javascript" then
             some "utf-8"
           else none,
           some content⟩
      | none => ⟨500, [], none, none, some "Internal Server Error"⟩
    else ⟨404, [], none, none, some "Not Found"⟩
  else ⟨403, [], none, none, some "Forbidden"⟩

/-- `handle_options` of `test-server.py`: the CORS preflight response,
with no body. -/
def handle_options : Response :=
  ⟨200,
   [("Access-Control-Allow-Origin", "*"),
    ("Access-Control-Allow-Methods", "GET, POST, OPTIONS"),
    ("Access-Control-Allow-Headers", "Content-Type")],
   none, none, none⟩

/-- `handle_request` of `test-server.py`: `OPTIONS` short-circuits to
the preflight response, paths starting with a configured proxy prefix
go to `proxy_request`, everything else to `serve_file`. -/
def handle_request (fs : FileSystem) (guess : String → Option String) (base : List String)
    (net : OutboundRequest → NetOutcome) (r : Request) : Response :=
  if r.method == "OPTIONS" then handle_options
  else if PROXY_PATHS.any (fun p => p.toList.isPrefixOf r.path.toList) then
    proxy_request net r
  else serve_file fs guess base r

/-- Dict lookup in a watcher snapshot (`file_path in self.file_times`
and `self.file_times[file_path]`). -/
def snapLookup (snap : List (String × Nat)) (k : String) : Option Nat :=
  (snap.find? (fun p => p.1 == k)).map (fun p => p.2)

/-- `FileWatcher.check_changes` of `dev-server.py`: given the stored
snapshot and the freshly scanned one (`get_watched_files()` is
filesystem input, so the scan result is a parameter), report whether
any file is new, modified or deleted, and store the new snapshot. -/
def check_changes (prev current : List (String × Nat)) : Bool × List (String × Nat) :=
  let changed :=
    (current.any fun fc =>
      match snapLookup prev fc.1 with
      | none => true
      | some m => m != fc.2) ||
    (prev.any fun fc => (snapLookup current fc.1).isNone)
  (changed, current)

/-- One iteration of the `watch_loop` in `FileWatcher.start`: run
`check_changes` and invoke the build callback once when a change was
detected.  The second component counts callback invocations. -/
def watch_iteration (prev current : List (String × Nat)) :
    List (String × Nat) × Nat :=
  let r := check_changes prev current
  (r.2, if r.1 = true then 1 else 0)

/-! ### Helper lemmas about the dict operations and the scanners -/

theorem dictGet_cons (p : String × String) (d : List (String × String)) (k : String) :
    dictGet (p :: d) k = if (p.1 == k) = true then some p.2 else dictGet d k := by
  rcases h : (p.1 == k) with _ | _ <;> simp [dictGet, List.find?_cons, h]

theorem dictGet_dictSet_self (d : List (String × String)) (k v : String) :
    dictGet (dictSet d k v) k = some v := by
  induction d with
  | nil => simp [dictGet, dictSet, List.find?]
  | cons p rest ih =>
    rcases hb : (p.1 == k) with _ | _
    · rw [show dictSet (p :: rest) k v = p :: dictSet rest k v from by simp [dictSet, hb],
        dictGet_cons, if_neg (by simp [hb]), ih]
    · rw [show dictSet (p :: rest) k v = (k, v) :: rest from by simp [dictSet, hb],
        dictGet_cons, if_pos (by simp)]

theorem dictGet_dictSet_ne (d : List (String × String)) (k k2 v : String) (h : k ≠ k2) :
    dictGet (dictSet d k2 v) k = dictGet d k := by
  have hbk : (k2 == k) = false := by simp [Ne.symm h]
  induction d with
  | nil =>
    rw [show dictSet [] k2 v = [(k2, v)] from rfl, dictGet_cons, if_neg (by simp [hbk])]
  | cons p rest ih =>
    rcases hb : (p.1 == k2) with _ | _
    · rw [show dictSet (p :: rest) k2 v = p :: dictSet rest k2 v from by simp [dictSet, hb],
        dictGet_cons, dictGet_cons, ih]
    · have hpk : (p.1 == k) = false := by
        have hp2 : p.1 = k2 := by simpa using hb
        simp [hp2, Ne.symm h]
      rw [show dictSet (p :: rest) k2 v = (k2, v) :: rest from by simp [dictSet, hb],
        dictGet_cons, dictGet_cons, if_neg (by simp [hbk]), if_neg (by simp [hpk])]

theorem dictSet_append_of_not_mem (d : List (String × String)) (k v : String)
    (h : k ∉ d.map (fun p => p.1)) :
    dictSet d k v = d ++ [(k, v)] := by
  induction d with
  | nil => rfl
  | cons p rest ih =>
    simp only [List.map_cons, List.mem_cons, not_or] at h
    have hp : ¬ p.1 = k := fun he => h.1 he.symm
    simp [dictSet, hp, ih h.2]

theorem removeOccFuel_sublist (pat : List Char) :
    ∀ (fuel : Nat) (s : List Char), (removeOccFuel pat fuel s).Sublist s := by
  intro fuel
  induction fuel with
  | zero => intro s; cases s <;> simp [removeOccFuel]
  | succ n ih =>
    intro s
    cases s with
    | nil => simp [removeOccFuel]
    | cons c rest =>
      rw [removeOccFuel]
      split
      · exact (ih _).trans (List.drop_sublist _ _)
      · exact (ih rest).cons₂ c

theorem removeOcc_sublist (pat s : List Char) : (removeOcc pat s).Sublist s :=
  removeOccFuel_sublist pat s.length s

theorem stripSecureL_sublist (s : List Char) : (stripSecureL s).Sublist s :=
  (removeOcc_sublist _ _).trans (removeOcc_sublist _ _)

theorem foldl_hstep_append (hs : List (String × String)) : ∀ d : List (String × String),
    (hs.map (fun p => p.1)).Nodup →
    (∀ p ∈ hs, p.1 ∉ d.map (fun q => q.1)) →
    hs.foldl hstep d =
      d ++ (hs.filter (fun p => !skipHeader p.1)).map (fun p => (p.1, cookieRewrite p.1 p.2)) := by
  induction hs with
  | nil => intro d _ _; simp
  | cons p t ih =>
    intro d hnd hdis
    simp only [List.map_cons, List.nodup_cons] at hnd
    rw [List.foldl_cons]
    rcases hsk : skipHeader p.1 with _ | _
    · have hstep_eq : hstep d p = d ++ [(p.1, cookieRewrite p.1 p.2)] := by
        rw [hstep, if_neg (by simp [hsk])]
        exact dictSet_append_of_not_mem d _ _ (hdis p (List.mem_cons_self _ _))
      have hdis2 : ∀ q ∈ t, q.1 ∉ (d ++ [(p.1, cookieRewrite p.1 p.2)]).map (fun x => x.1) := by
        intro q hq
        simp only [List.map_append, List.mem_append, List.map_cons, List.map_nil,
          List.mem_singleton, not_or]
        refine ⟨hdis q (List.mem_cons_of_mem _ hq), ?_⟩
        intro he
        exact hnd.1 (he ▸ List.mem_map_of_mem (fun x => x.1) hq)
      rw [hstep_eq, ih _ hnd.2 hdis2, List.filter_cons, if_pos (by simp [hsk])]
      simp [List.append_assoc]
    · have hstep_eq : hstep d p = d := by rw [hstep, if_pos (by simp [hsk])]
      rw [hstep_eq, ih d hnd.2 (fun q hq => hdis q (List.mem_cons_of_mem _ hq)),
        List.filter_cons, if_neg (by simp [hsk])]

theorem buildRespHeaders_eq (hs : List (String × String))
    (hnd : (hs.map (fun p => p.1)).Nodup) :
    buildRespHeaders hs =
      (hs.filter (fun p => !skipHeader p.1)).map (fun p => (p.1, cookieRewrite p.1 p.2)) := by
  have h := foldl_hstep_append hs [] hnd (by simp)
  simpa [buildRespHeaders] using h

theorem not_mem_keys_append (d e : List (String × String)) (k : String)
    (hd : k ∉ d.map (fun p => p.1)) (he : k ∉ e.map (fun p => p.1)) :
    k ∉ (d ++ e).map (fun p => p.1) := by
  rw [List.map_append]
  intro hm
  rcases List.mem_append.mp hm with h | h
  · exact hd h
  · exact he h

theorem addCors_append (d : List (String × String))
    (h1 : "Access-Control-Allow-Origin" ∉ d.map (fun p => p.1))
    (h2 : "Access-Control-Allow-Methods" ∉ d.map (fun p => p.1))
    (h3 : "Access-Control-Allow-Headers" ∉ d.map (fun p => p.1)) :
    addCors d = d ++
      [("Access-Control-Allow-Origin", "*"),
       ("Access-Control-Allow-Methods", "GET, POST, OPTIONS"),
       ("Access-Control-Allow-Headers", "Content-Type")] := by
  rw [addCors, dictSet_append_of_not_mem d _ _ h1,
    dictSet_append_of_not_mem _ _ _ (not_mem_keys_append _ _ _ h2 (by decide)),
    dictSet_append_of_not_mem _ _ _
      (not_mem_keys_append _ _ _ (not_mem_keys_append _ _ _ h3 (by decide)) (by decide))]
  simp [List.append_assoc]

theorem snapLookup_cons (p : String × Nat) (d : List (String × Nat)) (k : String) :
    snapLookup (p :: d) k = if (p.1 == k) = true then some p.2 else snapLookup d k := by
  rcases h : (p.1 == k) with _ | _ <;> simp [snapLookup, List.find?_cons, h]

theorem snapLookup_self : ∀ (cur : List (String × Nat)),
    (cur.map (fun p => p.1)).Nodup → ∀ fc ∈ cur, snapLookup cur fc.1 = some fc.2 := by
  intro cur
  induction cur with
  | nil => intro _ fc h; cases h
  | cons hd tl ih =>
    intro hnd fc hfc
    simp only [List.map_cons, List.nodup_cons] at hnd
    rcases List.mem_cons.mp hfc with heq | hmem
    · subst heq; rw [snapLookup_cons, if_pos (by simp)]
    · have hne : (hd.1 == fc.1) = false := by
        simp only [beq_eq_false_iff_ne, ne_eq]
        intro he
        exact hnd.1 (he ▸ List.mem_map_of_mem (fun p => p.1) hmem)
      rw [snapLookup_cons, if_neg (by simp [hne])]
      exact ih hnd.2 fc hmem

theorem snapLookup_isSome_of_mem (cur : List (String × Nat)) (fc : String × Nat)
    (hfc : fc ∈ cur) : (snapLookup cur fc.1).isSome = true := by
  induction cur with
  | nil => cases hfc
  | cons hd tl ih =>
    rw [snapLookup_cons]
    rcases h : (hd.1 == fc.1) with _ | _
    · rw [if_neg (by simp [h])]
      rcases List.mem_cons.mp hfc with heq | hmem
      · subst heq; simp at h
      · exact ih hmem
    · rw [if_pos (by simp [h])]; rfl

/-! ### Concrete fixtures used by counterexamples and witnesses -/

/-- Fixture request on a proxied path. -/
def reqEx : Request := ⟨"GET", "/spa-api/items", "/spa-api/items", [], ""⟩

/-- Fixture base directory for the static resolver. -/
def baseEx : List String := ["srv", "app"]

/-- Fixture filesystem: the base directory holds only `index.html`,
and `/etc/passwd` exists outside the base directory. -/
def fsEx : FileSystem :=
  ⟨fun p => p == ([] : List String) || p == ["srv"] || p == ["srv", "app"],
   fun p => p == ["srv", "app", "index.html"] || p == ["etc", "passwd"],
   fun p =>
     if p == ["srv", "app", "index.html"] then some "INDEX"
     else if p == ["etc", "passwd"] then some "root:x:0:0"
     else none⟩

/-- Fixture mime guesser answering nothing, like `mimetypes` without
a match. -/
def guessEx : String → Option String := fun _ => none

/-- Fixture network behaviour: every outbound call times out. -/
def netTimeout : OutboundRequest → NetOutcome := fun _ => .timeout

/-! ### Claim theorems -/

/-- C7: for every proxied request, the outbound target URL is exactly
the remote origin host concatenated with the inbound path-and-query;
the outbound headers are exactly `User-Agent` (inbound value, or the
generic browser string `Mozilla/5.0` if absent), `Content-Type`
(inbound value, or `application/json` if absent), and `Cookie` if and
only if present inbound; the inbound body is forwarded if and only if
the method is `POST`. -/
theorem c7_outbound_request (r : Request) :
    (outboundRequest r).url = PROXY_HOST ++ r.path_qs ∧
    headerGet (outboundRequest r).headers "User-Agent"
      = some ((headerGet r.headers "User-Agent").getD "Mozilla/5.0") ∧
    headerGet (outboundRequest r).headers "Content-Type"
      = some ((headerGet r.headers "Content-Type").getD "application/json") ∧
    headerGet (outboundRequest r).headers "Cookie" = headerGet r.headers "Cookie" ∧
    (∀ p ∈ (outboundRequest r).headers,
      p.1 = "User-Agent" ∨ p.1 = "Content-Type" ∨ p.1 = "Cookie") ∧
    (outboundRequest r).body = (if r.method == "POST" then some r.body else none) := by
  have f1 : (lowerStr "User-Agent" == lowerStr "Content-Type") = false := by decide
  have f2 : (lowerStr "User-Agent" == lowerStr "Cookie") = false := by decide
  have f3 : (lowerStr "Content-Type" == lowerStr "Cookie") = false := by decide
  rcases hc : headerGet r.headers "Cookie" with _ | c
  · refine ⟨rfl, ?_, ?_, ?_, ?_, rfl⟩
    · simp only [outboundRequest, hc]
      simp [headerGet, List.find?_cons]
    · simp only [outboundRequest, hc]
      simp [headerGet, List.find?_cons, f1]
    · simp only [outboundRequest, hc]
      simp [headerGet, List.find?_cons, f2, f3, hc]
    · simp only [outboundRequest, hc, List.append_nil]
      intro p hp
      rcases List.mem_cons.mp hp with h | hp2
      · left; rw [h]
      · rcases List.mem_cons.mp hp2 with h | hp3
        · right; left; rw [h]
        · cases hp3
  · refine ⟨rfl, ?_, ?_, ?_, ?_, rfl⟩
    · simp only [outboundRequest, hc]
      simp [headerGet, List.find?_cons]
    · simp only [outboundRequest, hc]
      simp [headerGet, List.find?_cons, f1]
    · simp only [outboundRequest, hc]
      simp [headerGet, List.find?_cons, f2, f3, hc]
    · simp only [outboundRequest, hc, List.cons_append, List.nil_append]
      intro p hp
      rcases List.mem_cons.mp hp with h | hp2
      · left; rw [h]
      · rcases List.mem_cons.mp hp2 with h | hp3
        · right; left; rw [h]
        · rcases List.mem_cons.mp hp3 with h | hp4
          · right; right; rw [h]
          · cases hp4

/-- C7 witness at a concrete request carrying a cookie. -/
theorem c7_outbound_request_witness :
    (outboundRequest ⟨"POST", "/spa-api/send", "/spa-api/send?x=1",
        [("Cookie", "sid=9")], "payload"⟩).url = PROXY_HOST ++ "/spa-api/send?x=1" ∧
    headerGet (outboundRequest ⟨"POST", "/spa-api/send", "/spa-api/send?x=1",
        [("Cookie", "sid=9")], "payload"⟩).headers "User-Agent" = some "Mozilla/5.0" ∧
    headerGet (outboundRequest ⟨"POST", "/spa-api/send", "/spa-api/send?x=1",
        [("Cookie", "sid=9")], "payload"⟩).headers "Content-Type" = some "application/json" ∧
    headerGet (outboundRequest ⟨"POST", "/spa-api/send", "/spa-api/send?x=1",
        [("Cookie", "sid=9")], "payload"⟩).headers "Cookie" = some "sid=9" ∧
    (∀ p ∈ (outboundRequest ⟨"POST", "/spa-api/send", "/spa-api/send?x=1",
        [("Cookie", "sid=9")], "payload"⟩).headers,
      p.1 = "User-Agent" ∨ p.1 = "Content-Type" ∨ p.1 = "Cookie") ∧
    (outboundRequest ⟨"POST", "/spa-api/send", "/spa-api/send?x=1",
        [("Cookie", "sid=9")], "payload"⟩).body = some "payload" :=
  c7_outbound_request ⟨"POST", "/spa-api/send", "/spa-api/send?x=1", [("Cookie", "sid=9")],
    "payload"⟩

/-- C8: a timed-out outbound call yields exactly status 504 with the
literal body `Proxy timeout`; an outbound call failing with an
`aiohttp.ClientError` whose message is `msg` yields status 502 and the
plain-text body `Proxy error: msg`. -/
theorem c8_timeout_and_transport (net : OutboundRequest → NetOutcome) (r : Request) :
    (net (outboundRequest r) = NetOutcome.timeout →
      proxy_request net r = ⟨504, [], none, none, some "Proxy timeout"⟩) ∧
    (∀ msg, net (outboundRequest r) = NetOutcome.clientError msg →
      proxy_request net r = ⟨502, [], none, none, some ("Proxy error: " ++ msg)⟩) := by
  constructor
  · intro h
    unfold proxy_request
    rw [h]
  · intro msg h
    unfold proxy_request
    rw [h]

/-- C8 witness at concrete network outcomes. -/
theorem c8_timeout_and_transport_witness :
    proxy_request netTimeout reqEx = ⟨504, [], none, none, some "Proxy timeout"⟩ ∧
    proxy_request (fun _ => NetOutcome.clientError "Cannot connect to host") reqEx
      = ⟨502, [], none, none, some "Proxy error: Cannot connect to host"⟩ :=
  ⟨(c8_timeout_and_transport netTimeout reqEx).1 rfl,
   (c8_timeout_and_transport (fun _ => NetOutcome.clientError "Cannot connect to host")
     reqEx).2 "Cannot connect to host" rfl⟩

/-- C5: the Router answers `OPTIONS` requests, regardless of path,
with a response with no body whose headers are exactly the three CORS
headers; every other request is delegated to the Forwarder exactly
when its path starts with a configured proxy prefix, and to the
Resolver when it matches no prefix, independently of the network. -/
theorem c5_router_dispatch (fs : FileSystem) (guess : String → Option String)
    (base : List String) (net : OutboundRequest → NetOutcome) (r : Request) :
    (r.method = "OPTIONS" →
      handle_request fs guess base net r =
        ⟨200,
         [("Access-Control-Allow-Origin", "*"),
          ("Access-Control-Allow-Methods", "GET, POST, OPTIONS"),
          ("Access-Control-Allow-Headers", "Content-Type")],
         none, none, none⟩) ∧
    (r.method ≠ "OPTIONS" →
      ((∃ p ∈ PROXY_PATHS, p.toList.isPrefixOf r.path.toList = true) →
        handle_request fs guess base net r = proxy_request net r) ∧
      ((∀ p ∈ PROXY_PATHS, p.toList.isPrefixOf r.path.toList = false) →
        handle_request fs guess base net r = serve_file fs guess base r)) := by
  refine ⟨?_, ?_⟩
  · intro h
    unfold handle_request
    rw [if_pos (by simp [h])]
    rfl
  · intro hne
    have hm : (r.method == "OPTIONS") = false := by simp [hne]
    constructor
    · rintro ⟨p, hp, hpre⟩
      have hany : PROXY_PATHS.any (fun p => p.toList.isPrefixOf r.path.toList) = true :=
        List.any_eq_true.mpr ⟨p, hp, hpre⟩
      unfold handle_request
      rw [if_neg (by simp [hm]), if_pos hany]
    · intro hall
      have hany : PROXY_PATHS.any (fun p => p.toList.isPrefixOf r.path.toList) = false := by
        apply List.any_eq_false.mpr
        intro p hp
        rw [show (p.toList.isPrefixOf r.path.toList) = false from hall p hp]
        exact Bool.false_ne_true
      unfold handle_request
      rw [if_neg (by simp [hm]), if_neg (by rw [hany]; exact Bool.false_ne_true)]

/-- C5 witness at concrete requests: a preflight, a proxied path, and
a local path. -/
theorem c5_router_dispatch_witness :
    handle_request fsEx guessEx baseEx netTimeout ⟨"OPTIONS", "/any", "/any", [], ""⟩ =
      ⟨200,
       [("Access-Control-Allow-Origin", "*"),
        ("Access-Control-Allow-Methods", "GET, POST, OPTIONS"),
        ("Access-Control-Allow-Headers", "Content-Type")],
       none, none, none⟩ ∧
    handle_request fsEx guessEx baseEx netTimeout reqEx = proxy_request netTimeout reqEx ∧
    handle_request fsEx guessEx baseEx netTimeout ⟨"GET", "/page.txt", "/page.txt", [], ""⟩ =
      serve_file fsEx guessEx baseEx ⟨"GET", "/page.txt", "/page.txt", [], ""⟩ :=
  ⟨(c5_router_dispatch fsEx guessEx baseEx netTimeout _).1 rfl,
   ((c5_router_dispatch fsEx guessEx baseEx netTimeout reqEx).2 (by decide)).1
     ⟨"/spa-api", by decide, by decide⟩,
   ((c5_router_dispatch fsEx guessEx baseEx netTimeout _).2 (by decide)).2 (by decide)⟩

/-- Per-entry change test of `check_changes` expressed as a
disjunction over the lookup result. -/
theorem changed_entry_iff (prev : List (String × Nat)) (fc : String × Nat) :
    ((match snapLookup prev fc.1 with
      | none => true
      | some m => m != fc.2) = true) ↔
    (snapLookup prev fc.1 = none ∨
      ∃ m, snapLookup prev fc.1 = some m ∧ m ≠ fc.2) := by
  rcases h : snapLookup prev fc.1 with _ | m <;> simp [h, bne_iff_ne]

/-- The change flag of `check_changes` holds exactly when some file is
new, modified, or removed. -/
theorem check_changes_flag_iff (prev current : List (String × Nat)) :
    (check_changes prev current).1 = true ↔
      ((∃ fc ∈ current, snapLookup prev fc.1 = none ∨
          ∃ m, snapLookup prev fc.1 = some m ∧ m ≠ fc.2) ∨
        ∃ fc ∈ prev, snapLookup current fc.1 = none) := by
  have hunf : (check_changes prev current).1 =
      ((current.any fun fc =>
        match snapLookup prev fc.1 with
        | none => true
        | some m => m != fc.2) ||
       (prev.any fun fc => (snapLookup current fc.1).isNone)) := rfl
  rw [hunf]
  simp only [Bool.or_eq_true, List.any_eq_true]
  constructor
  · rintro (⟨fc, hfc, hm⟩ | ⟨fc, hfc, hm⟩)
    · exact Or.inl ⟨fc, hfc, (changed_entry_iff prev fc).mp hm⟩
    · exact Or.inr ⟨fc, hfc, Option.isNone_iff_eq_none.mp hm⟩
  · rintro (⟨fc, hfc, hm⟩ | ⟨fc, hfc, hm⟩)
    · exact Or.inl ⟨fc, hfc, (changed_entry_iff prev fc).mpr hm⟩
    · exact Or.inr ⟨fc, hfc, Option.isNone_iff_eq_none.mpr hm⟩

/-- C9: in each watcher poll cycle, a file counts as changed if it is
new, removed, or carries a different last-modified timestamp than the
previous snapshot; and the build callback is invoked exactly once for
the whole batch, never once per changed file: the invocation count of
a cycle is one exactly when some file changed, and never exceeds one.
-/
theorem c9_batch_callback (prev current : List (String × Nat)) :
    ((watch_iteration prev current).2 = 1 ↔
      ((∃ fc ∈ current, snapLookup prev fc.1 = none ∨
          ∃ m, snapLookup prev fc.1 = some m ∧ m ≠ fc.2) ∨
        ∃ fc ∈ prev, snapLookup current fc.1 = none)) ∧
    (watch_iteration prev current).2 ≤ 1 := by
  have hunf : (watch_iteration prev current).2
      = (if (check_changes prev current).1 = true then 1 else 0) := rfl
  constructor
  · rw [hunf]
    rcases hb : (check_changes prev current).1 with _ | _
    · rw [if_neg Bool.false_ne_true]
      refine ⟨fun h => absurd h (by omega), fun h => ?_⟩
      exact absurd ((check_changes_flag_iff prev current).mpr h)
        (by rw [hb]; exact Bool.false_ne_true)
    · rw [if_pos rfl]
      exact ⟨fun _ => (check_changes_flag_iff prev current).mp hb, fun _ => rfl⟩
  · rw [hunf]
    split
    · omega
    · omega

/-- C9 witness: two files change in the same cycle and the callback
count for the cycle is one. -/
theorem c9_batch_callback_witness :
    ((watch_iteration [("a.ts", 1), ("b.ts", 1)] [("a.ts", 2), ("b.ts", 2)]).2 = 1 ↔
      ((∃ fc ∈ [("a.ts", 2), ("b.ts", 2)],
          snapLookup [("a.ts", 1), ("b.ts", 1)] fc.1 = none ∨
          ∃ m, snapLookup [("a.ts", 1), ("b.ts", 1)] fc.1 = some m ∧ m ≠ fc.2) ∨
        ∃ fc ∈ [("a.ts", 1), ("b.ts", 1)],
          snapLookup [("a.ts", 2), ("b.ts", 2)] fc.1 = none)) ∧
    (watch_iteration [("a.ts", 1), ("b.ts", 1)] [("a.ts", 2), ("b.ts", 2)]).2 ≤ 1 :=
  c9_batch_callback [("a.ts", 1), ("b.ts", 1)] [("a.ts", 2), ("b.ts", 2)]

/-- C10: `check_changes` always stores the freshly scanned snapshot,
whether or not a change was detected; consequently a single file
modification is reported in at most one poll cycle: when the next
scan returns the identical snapshot (whose keys are unique, as in a
Python dict), no change is reported again. -/
theorem c10_snapshot_update (prev current : List (String × Nat)) :
    (check_changes prev current).2 = current ∧
    ((current.map (fun p => p.1)).Nodup →
      (check_changes (check_changes prev current).2 current).1 = false) := by
  refine ⟨rfl, ?_⟩
  intro hnd
  rw [show (check_changes prev current).2 = current from rfl]
  have hA : (current.any fun fc =>
      match snapLookup current fc.1 with
      | none => true
      | some m => m != fc.2) = false := by
    apply List.any_eq_false.mpr
    intro fc hfc
    rw [snapLookup_self current hnd fc hfc]
    simp
  have hB : (current.any fun fc => (snapLookup current fc.1).isNone) = false := by
    apply List.any_eq_false.mpr
    intro fc hfc
    rw [snapLookup_self current hnd fc hfc]
    simp
  show ((current.any fun fc =>
      match snapLookup current fc.1 with
      | none => true
      | some m => m != fc.2) ||
    (current.any fun fc => (snapLookup current fc.1).isNone)) = false
  rw [hA, hB]
  rfl

/-- C10 witness: a modified file is reported once and not re-reported
while it stays unchanged. -/
theorem c10_snapshot_update_witness :
    (check_changes [("main.ts", 1)] [("main.ts", 2)]).2 = [("main.ts", 2)] ∧
    (check_changes (check_changes [("main.ts", 1)] [("main.ts", 2)]).2
      [("main.ts", 2)]).1 = false :=
  ⟨(c10_snapshot_update [("main.ts", 1)] [("main.ts", 2)]).1,
   (c10_snapshot_update [("main.ts", 1)] [("main.ts", 2)]).2 (by decide)⟩

/-- C2 counterexample: a locally served response — here a 404 from
the Static File Resolver, reached because the path matches no proxy
prefix — carries no `Access-Control-Allow-Origin` header at all, so
not every response carries CORS headers. -/
theorem c2_local_response_counterexample :
    PROXY_PATHS.any (fun p => p.toList.isPrefixOf "/missing.txt".toList) = false ∧
    (handle_request fsEx guessEx baseEx netTimeout
      ⟨"GET", "/missing.txt", "/missing.txt", [], ""⟩).headers = [] ∧
    dictGet (handle_request fsEx guessEx baseEx netTimeout
      ⟨"GET", "/missing.txt", "/missing.txt", [], ""⟩).headers
      "Access-Control-Allow-Origin" = none := by
  refine ⟨by decide, by decide, by decide⟩

/-- C2 (amended): the allow-all CORS header is guaranteed on the
preflight (`OPTIONS`) response and on every successful proxied
response; locally served responses (and proxy error responses) do not
receive CORS headers. -/
theorem c2_cors_on_options_and_proxy (fs : FileSystem) (guess : String → Option String)
    (base : List String) (net : OutboundRequest → NetOutcome) (r : Request)
    (st : Nat) (hs : List (String × String)) (b : String) :
    (r.method = "OPTIONS" →
      dictGet (handle_request fs guess base net r).headers "Access-Control-Allow-Origin"
        = some "*") ∧
    (net (outboundRequest r) = NetOutcome.success st hs b →
      dictGet (proxy_request net r).headers "Access-Control-Allow-Origin" = some "*") := by
  constructor
  · intro h
    unfold handle_request
    rw [if_pos (by simp [h])]
    decide
  · intro h
    unfold proxy_request
    rw [h]
    show dictGet (addCors (buildRespHeaders hs)) "Access-Control-Allow-Origin" = some "*"
    unfold addCors
    rw [dictGet_dictSet_ne _ _ _ _ (by decide), dictGet_dictSet_ne _ _ _ _ (by decide),
      dictGet_dictSet_self]

/-- C2 witness: a concrete preflight response and a concrete proxied
response, both carrying the allow-all CORS header. -/
theorem c2_cors_witness :
    dictGet (handle_request fsEx guessEx baseEx netTimeout
      ⟨"OPTIONS", "/x", "/x", [], ""⟩).headers "Access-Control-Allow-Origin" = some "*" ∧
    dictGet (proxy_request (fun _ => NetOutcome.success 200 [] "ok") reqEx).headers
      "Access-Control-Allow-Origin" = some "*" :=
  ⟨(c2_cors_on_options_and_proxy fsEx guessEx baseEx netTimeout
      ⟨"OPTIONS", "/x", "/x", [], ""⟩ 200 [] "ok").1 rfl,
   (c2_cors_on_options_and_proxy fsEx guessEx baseEx
      (fun _ => NetOutcome.success 200 [] "ok") reqEx 200 [] "ok").2 rfl⟩

/-- Fixture network behaviour: the outbound call raises an unexpected
exception whose message holds internal detail. -/
def netBoom : OutboundRequest → NetOutcome :=
  fun _ => .otherError "division by zero in handler at /srv/app"

/-- C3 counterexample: the proxy's catch-all handler copies the
exception message into the 500 response body, so the body is not
generic and internal details reach the client, contrary to the claim
that they only go to the operator log. -/
theorem c3_detail_leak_counterexample :
    (proxy_request netBoom reqEx).status = 500 ∧
    (proxy_request netBoom reqEx).body
      = some "Server error: division by zero in handler at /srv/app" ∧
    (proxy_request netBoom reqEx).body
      ≠ (proxy_request (fun _ => NetOutcome.otherError "other") reqEx).body := by
  refine ⟨rfl, rfl, by decide⟩

/-- C3 (amended): every 500 response of the Static File Resolver has
the generic body `Internal Server Error`; the Proxy Forwarder's
catch-all also returns 500 without letting the exception propagate,
but it embeds the exception message in the body (`Server error: msg`),
so internal details can reach the client on proxied requests. -/
theorem c3_internal_error_bodies (net : OutboundRequest → NetOutcome) (r : Request)
    (msg : String) (fs : FileSystem) (guess : String → Option String) (base : List String)
    (r2 : Request) :
    (net (outboundRequest r) = NetOutcome.otherError msg →
      proxy_request net r = ⟨500, [], none, none, some ("Server error: " ++ msg)⟩) ∧
    ((serve_file fs guess base r2).status = 500 →
      (serve_file fs guess base r2).body = some "Internal Server Error") := by
  constructor
  · intro h
    unfold proxy_request
    rw [h]
  · simp only [serve_file]
    split
    · split
      · split
        · intro h; simp at h
        · intro _; rfl
      · intro h; simp at h
    · intro h; simp at h

/-- Fixture filesystem whose only file cannot be read. -/
def fsBad : FileSystem :=
  ⟨fun p => p == ([] : List String) || p == ["srv"] || p == ["srv", "app"],
   fun p => p == ["srv", "app", "boom.txt"],
   fun _ => none⟩

/-- C3 witness: a concrete proxy failure embedding its message, and a
concrete unreadable file yielding the generic body. -/
theorem c3_internal_error_bodies_witness :
    proxy_request netBoom reqEx
      = ⟨500, [], none, none, some "Server error: division by zero in handler at /srv/app"⟩ ∧
    (serve_file fsBad guessEx baseEx ⟨"GET", "/boom.txt", "/boom.txt", [], ""⟩).body
      = some "Internal Server Error" :=
  ⟨(c3_internal_error_bodies netBoom reqEx "division by zero in handler at /srv/app"
      fsBad guessEx baseEx ⟨"GET", "/boom.txt", "/boom.txt", [], ""⟩).1 rfl,
   (c3_internal_error_bodies netBoom reqEx "division by zero in handler at /srv/app"
      fsBad guessEx baseEx ⟨"GET", "/boom.txt", "/boom.txt", [], ""⟩).2 (by decide)⟩

/-- C1 counterexample: the request `GET /../../etc/passwd` contains
`../` segments whose canonicalisation escapes the root, yet the
Resolver answers 200 with the index document, not 403 — the final
component has no suffix, so the SPA fallback replaces the candidate
with `index.html` before the security check runs. -/
theorem c1_traversal_counterexample :
    baseEx.isPrefixOf (resolvePath (baseEx ++ parseRel "../../etc/passwd")) = false ∧
    serve_file fsEx guessEx baseEx
      ⟨"GET", "/../../etc/passwd", "/../../etc/passwd", [], ""⟩
      = ⟨200, [], some "application/octet-stream", none, some "INDEX"⟩ ∧
    (serve_file fsEx guessEx baseEx
      ⟨"GET", "/../../etc/passwd", "/../../etc/passwd", [], ""⟩).status ≠ 403 := by
  refine ⟨by decide, by decide, by decide⟩

/-- C1 (amended): the canonicalize-and-verify-ancestry check rejects
with 403 every final candidate path (after SPA fallback and directory
index substitution) that does not canonicalize to a descendant of the
root, and the Resolver never serves content from outside the root: a
200 response implies the candidate canonicalizes under the root.
However, a traversal path whose final component lacks a suffix
triggers the SPA fallback first and is answered with the index
document rather than 403. -/
theorem c1_ancestry_check (fs : FileSystem) (guess : String → Option String)
    (base : List String) (r : Request) :
    (base.isPrefixOf (resolvePath (candidate fs base r.path)) = false →
      serve_file fs guess base r = ⟨403, [], none, none, some "Forbidden"⟩) ∧
    ((serve_file fs guess base r).status = 200 →
      base.isPrefixOf (resolvePath (candidate fs base r.path)) = true) := by
  constructor
  · intro h
    simp only [serve_file]
    rw [if_neg (by rw [h]; exact Bool.false_ne_true)]
  · simp only [serve_file]
    split
    next hpre =>
      split
      · split
        · intro _; exact hpre
        · intro h; simp at h
      · intro h; simp at h
    next hpre =>
      intro h; simp at h

/-- C1 witness: a traversal path whose final component carries a
suffix reaches the ancestry check and is rejected with 403. -/
theorem c1_ancestry_check_witness :
    baseEx.isPrefixOf (resolvePath (candidate fsEx baseEx "/../../etc/passwd.txt")) = false ∧
    serve_file fsEx guessEx baseEx
      ⟨"GET", "/../../etc/passwd.txt", "/../../etc/passwd.txt", [], ""⟩
      = ⟨403, [], none, none, some "Forbidden"⟩ :=
  ⟨by decide,
   (c1_ancestry_check fsEx guessEx baseEx
     ⟨"GET", "/../../etc/passwd.txt", "/../../etc/passwd.txt", [], ""⟩).1 (by decide)⟩

/-- Fixture network behaviour: the origin answers with a `Set-Cookie`
value holding an attribute whose name begins with `Secure`. -/
def netCookieMangle : OutboundRequest → NetOutcome :=
  fun _ => .success 200 [("Set-Cookie", "id=1; Path=/; SecureNote=x")] "ok"

/-- C4 counterexample: the rewrite deletes the substring `; Secure`
even when it is the head of a longer attribute, so the attribute
`SecureNote=x` of the original value is destroyed (it is truncated to
`Note=x` and merged into the previous attribute) rather than
preserved unchanged, contradicting the claim that every other cookie
attribute is preserved. -/
theorem c4_attribute_mangling_counterexample :
    dictGet (proxy_request netCookieMangle reqEx).headers "Set-Cookie"
      = some "id=1; Path=/Note=x" ∧
    (splitOnChar ';' "id=1; Path=/; SecureNote=x".toList).map List.asString
      = ["id=1", " Path=/", " SecureNote=x"] ∧
    (splitOnChar ';' "id=1; Path=/Note=x".toList).map List.asString
      = ["id=1", " Path=/Note=x"] := by
  refine ⟨by decide, by decide, by decide⟩

/-- C4 (amended): for every origin `Set-Cookie` value, the forwarded
value is obtained by deleting the left-to-right non-overlapping
occurrences of `; Secure` and then of `;Secure`; every character
outside the deleted occurrences is preserved in its original order
(the forwarded value is a subsequence of the original), but an
attribute that merely contains one of these substrings is truncated
rather than preserved. -/
theorem c4_secure_strip (net : OutboundRequest → NetOutcome) (r : Request)
    (st : Nat) (v : String) (b : String)
    (hnet : net (outboundRequest r) = NetOutcome.success st [("Set-Cookie", v)] b) :
    dictGet (proxy_request net r).headers "Set-Cookie" = some (stripSecure v) ∧
    (stripSecureL v.toList).Sublist v.toList := by
  refine ⟨?_, stripSecureL_sublist v.toList⟩
  unfold proxy_request
  rw [hnet]
  show dictGet (addCors (buildRespHeaders [("Set-Cookie", v)])) "Set-Cookie"
    = some (stripSecure v)
  have hb : buildRespHeaders [("Set-Cookie", v)] = [("Set-Cookie", stripSecure v)] := by
    show (if skipHeader "Set-Cookie" = true then ([] : List (String × String))
        else dictSet [] "Set-Cookie" (cookieRewrite "Set-Cookie" v))
      = [("Set-Cookie", stripSecure v)]
    rw [if_neg (by decide)]
    show [("Set-Cookie", cookieRewrite "Set-Cookie" v)] = _
    rw [show cookieRewrite "Set-Cookie" v = stripSecure v from by
      show (if (lowerStr "Set-Cookie" == "set-cookie") = true then stripSecure v else v)
        = stripSecure v
      rw [if_pos (by decide)]]
  rw [hb]
  unfold addCors
  rw [dictGet_dictSet_ne _ _ _ _ (by decide), dictGet_dictSet_ne _ _ _ _ (by decide),
    dictGet_dictSet_ne _ _ _ _ (by decide)]
  rfl

/-- Fixture network behaviour: the origin sets a cookie carrying the
`Secure` flag among other attributes. -/
def netCookieHttp : OutboundRequest → NetOutcome :=
  fun _ => .success 200 [("Set-Cookie", "sid=1; Path=/; Secure; HttpOnly")] "ok"

/-- C4 witness at a concrete cookie value. -/
theorem c4_secure_strip_witness :
    dictGet (proxy_request netCookieHttp reqEx).headers "Set-Cookie"
      = some "sid=1; Path=/; HttpOnly" ∧
    (stripSecureL "sid=1; Path=/; Secure; HttpOnly".toList).Sublist
      "sid=1; Path=/; Secure; HttpOnly".toList :=
  c4_secure_strip netCookieHttp reqEx 200 "sid=1; Path=/; Secure; HttpOnly" "ok" rfl

/-- Fixture origin response carrying a duplicated header name. -/
def netDup : OutboundRequest → NetOutcome :=
  fun _ => .success 200 [("X-Dup", "1"), ("X-Dup", "2")] "ok"

/-- C6 counterexample: the origin sends two headers named `X-Dup`,
neither of them among the three excluded transport headers, but the
forwarding dict keeps only the last occurrence, so the response does
not copy all of the origin's headers. -/
theorem c6_duplicate_header_counterexample :
    ("X-Dup", "1") ∈ [("X-Dup", "1"), ("X-Dup", "2")] ∧
    skipHeader "X-Dup" = false ∧
    ("X-Dup", "1") ∉ (proxy_request netDup reqEx).headers ∧
    (proxy_request netDup reqEx).headers
      = [("X-Dup", "2"),
         ("Access-Control-Allow-Origin", "*"),
         ("Access-Control-Allow-Methods", "GET, POST, OPTIONS"),
         ("Access-Control-Allow-Headers", "Content-Type")] := by
  refine ⟨by decide, by decide, by decide, by decide⟩

/-- C6 (amended): for a successful proxied request whose origin
header names are pairwise distinct and distinct from the three CORS
header names, the response keeps the origin's status code and full
body, copies the origin headers in order except `Transfer-Encoding`,
`Connection` and `Content-Encoding` (matched case-insensitively, with
`Set-Cookie` values rewritten), and appends the three CORS headers;
when an origin header name repeats, only its last occurrence is
forwarded, and a CORS assignment overrides only an origin header
whose name matches exactly. -/
theorem c6_forwarded_headers (net : OutboundRequest → NetOutcome) (r : Request)
    (st : Nat) (hs : List (String × String)) (b : String)
    (hnet : net (outboundRequest r) = NetOutcome.success st hs b)
    (hnd : (hs.map (fun p => p.1)).Nodup)
    (hcors : ∀ p ∈ hs, p.1 ≠ "Access-Control-Allow-Origin" ∧
      p.1 ≠ "Access-Control-Allow-Methods" ∧ p.1 ≠ "Access-Control-Allow-Headers") :
    proxy_request net r =
      ⟨st,
       (hs.filter (fun p => !skipHeader p.1)).map (fun p => (p.1, cookieRewrite p.1 p.2)) ++
         [("Access-Control-Allow-Origin", "*"),
          ("Access-Control-Allow-Methods", "GET, POST, OPTIONS"),
          ("Access-Control-Allow-Headers", "Content-Type")],
       none, none, some b⟩ := by
  have hsub : ∀ k : String, (∀ p ∈ hs, p.1 ≠ k) →
      k ∉ ((hs.filter (fun p => !skipHeader p.1)).map
        (fun p => (p.1, cookieRewrite p.1 p.2))).map (fun p => p.1) := by
    intro k hk hmem
    simp only [List.map_map, List.mem_map, Function.comp] at hmem
    obtain ⟨q, hq, hq1⟩ := hmem
    exact hk q (List.mem_of_mem_filter hq) hq1
  unfold proxy_request
  rw [hnet]
  show (⟨st, addCors (buildRespHeaders hs), none, none, some b⟩ : Response) = _
  rw [show buildRespHeaders hs =
      (hs.filter (fun p => !skipHeader p.1)).map (fun p => (p.1, cookieRewrite p.1 p.2))
    from buildRespHeaders_eq hs hnd,
    addCors_append _ (hsub _ (fun p hp => (hcors p hp).1))
      (hsub _ (fun p hp => (hcors p hp).2.1))
      (hsub _ (fun p hp => (hcors p hp).2.2))]

/-- Fixture origin response with distinct header names, a transport
header to strip, and a Secure cookie. -/
def netOK : OutboundRequest → NetOutcome :=
  fun _ => .success 200
    [("Content-Type", "text/html"), ("Transfer-Encoding", "chunked"),
     ("Set-Cookie", "a=1; Secure")] "BODY"

/-- C6 witness at a concrete origin response. -/
theorem c6_forwarded_headers_witness :
    proxy_request netOK reqEx =
      ⟨200,
       [("Content-Type", "text/html"), ("Set-Cookie", "a=1"),
        ("Access-Control-Allow-Origin", "*"),
        ("Access-Control-Allow-Methods", "GET, POST, OPTIONS"),
        ("Access-Control-Allow-Headers", "Content-Type")],
       none, none, some "BODY"⟩ :=
  c6_forwarded_headers netOK reqEx 200
    [("Content-Type", "text/html"), ("Transfer-Encoding", "chunked"),
     ("Set-Cookie", "a=1; Secure")] "BODY" rfl (by decide) (by decide)

end VdxWeb
